import Mathlib

/-!
Verification of the node-side migration agent
(`src/spot_agent_production_v2_final.py`) against its natural-language
specification.

The Python source is shallowly embedded: every network- or cloud-touching
call (`boto3`, `requests`) is abstracted as a field of an explicit
environment record `AwsEnv`, mutable attributes of `SpotOptimizerAgent`
become an explicit `AgentState` threaded through the functions, and
wall-clock reads (`datetime.utcnow()`) become reads of a monotone `clock`
counter that is bumped at every read.  Side effects the claims talk about
(AMI creation, instance launch, termination, switch reports, command
acknowledgements) are collected in an explicit `Effect` trace.
-/

/-- Models the zone normalization of the source (str.replace of the hyphen
by the empty string): every hyphen is removed. -/
def stripHyphens (s : String) : String :=
  String.mk (s.data.filter (fun c => c ≠ '-'))

/-- One row of `describe_spot_price_history`'s response
(`AvailabilityZone` / `SpotPrice`), the only two fields the agent reads. -/
structure SpotHistoryItem where
  az : String
  price : ℚ
deriving DecidableEq, Repr

/-- One element of the pool list built by
`AWSResourceManager.get_spot_prices` (the dict `{az, pool_id, price}`). -/
structure PriceSample where
  az : String
  pool_id : String
  price : ℚ
deriving DecidableEq, Repr

/-- The for-loop of `AWSResourceManager.get_spot_prices` (lines 310-323):
walks the spot price history in order, skipping zones already seen and
emitting one sample per fresh zone whose pool id is the instance type, an
underscore, and the zone with its hyphens removed. -/
def get_spot_prices_go (instance_type : String) :
    List SpotHistoryItem → List String → List PriceSample
  | [], _ => []
  | item :: rest, seen =>
    if item.az ∈ seen then
      get_spot_prices_go instance_type rest seen
    else
      { az := item.az,
        pool_id := instance_type ++ "_" ++ stripHyphens item.az,
        price := item.price } :: get_spot_prices_go instance_type rest (item.az :: seen)

/-- `AWSResourceManager.get_spot_prices` (lines 300-327), with the provider's
response history passed explicitly (the `try`/`except` wrapper that returns
`[]` on a transport error is environment behaviour, not list processing). -/
def get_spot_prices (instance_type : String) (history : List SpotHistoryItem) :
    List PriceSample :=
  get_spot_prices_go instance_type history []

theorem get_spot_prices_go_mem {instance_type : String} :
    ∀ (l : List SpotHistoryItem) (seen : List String) (p : PriceSample),
      p ∈ get_spot_prices_go instance_type l seen →
      p.az ∉ seen ∧
      p.pool_id = instance_type ++ "_" ++ stripHyphens p.az ∧
      l.find? (fun h => h.az == p.az) = some { az := p.az, price := p.price } := by
  intro l
  induction l with
  | nil => intro seen p hp; simp [get_spot_prices_go] at hp
  | cons item rest ih =>
    intro seen p hp
    rw [get_spot_prices_go] at hp
    by_cases hseen : item.az ∈ seen
    · simp only [if_pos hseen] at hp
      obtain ⟨hns, hpid, hfind⟩ := ih seen p hp
      have hne : item.az ≠ p.az := fun he => hns (he ▸ hseen)
      refine ⟨hns, hpid, ?_⟩
      rw [List.find?_cons]
      have : (item.az == p.az) = false := by
        simp [hne]
      simp [this, hfind]
    · simp only [if_neg hseen] at hp
      rcases List.mem_cons.mp hp with heq | htail
      · subst heq
        refine ⟨hseen, rfl, ?_⟩
        rw [List.find?_cons]
        simp
      · obtain ⟨hns, hpid, hfind⟩ := ih (item.az :: seen) p htail
        have hne : item.az ≠ p.az := by
          intro he
          exact hns (he ▸ List.mem_cons_self _ _)
        refine ⟨fun hs => hns (List.mem_cons_of_mem _ hs), hpid, ?_⟩
        rw [List.find?_cons]
        have : (item.az == p.az) = false := by simp [hne]
        simp [this, hfind]

theorem get_spot_prices_go_nodup {instance_type : String} :
    ∀ (l : List SpotHistoryItem) (seen : List String),
      ((get_spot_prices_go instance_type l seen).map PriceSample.az).Nodup := by
  intro l
  induction l with
  | nil => intro seen; simp [get_spot_prices_go]
  | cons item rest ih =>
    intro seen
    rw [get_spot_prices_go]
    by_cases hseen : item.az ∈ seen
    · simpa [if_pos hseen] using ih seen
    · simp only [if_neg hseen, List.map_cons, List.nodup_cons]
      refine ⟨?_, ih (item.az :: seen)⟩
      intro hmem
      rcases List.mem_map.mp hmem with ⟨p, hp, haz⟩
      have := (get_spot_prices_go_mem rest (item.az :: seen) p hp).1
      exact this (haz ▸ List.mem_cons_self _ _)

/-- C7. Every sample returned by `get_spot_prices(instance_type)` carries
as pool id the instance type, an underscore, and its own zone with the
hyphens removed, and reproduces the price of the first history row for
that zone (first occurrence wins); moreover the returned zones are
pairwise distinct. -/
theorem C7_spot_price_pools (instance_type : String) (history : List SpotHistoryItem) :
    (∀ p ∈ get_spot_prices instance_type history,
        p.pool_id = instance_type ++ "_" ++ stripHyphens p.az ∧
        history.find? (fun h => h.az == p.az) = some { az := p.az, price := p.price }) ∧
    ((get_spot_prices instance_type history).map PriceSample.az).Nodup := by
  constructor
  · intro p hp
    have := get_spot_prices_go_mem history [] p hp
    exact ⟨this.2.1, this.2.2⟩
  · exact get_spot_prices_go_nodup history []

/-- Witness for C7 at a concrete three-row history with a duplicated zone:
the duplicate's price (2) is not the one reported, the first one (1) is. -/
theorem C7_spot_price_pools_witness :
    ([⟨"ap-south-1a", (1:ℚ)⟩, ⟨"ap-south-1b", (3:ℚ)⟩,
      ⟨"ap-south-1a", (2:ℚ)⟩] : List SpotHistoryItem).find?
        (fun h => h.az == "ap-south-1a") = some ⟨"ap-south-1a", (1:ℚ)⟩ ∧
    ({ az := "ap-south-1a", pool_id := "m5.large_apsouth1a", price := (1:ℚ) } : PriceSample)
      ∈ get_spot_prices "m5.large"
        [⟨"ap-south-1a", (1:ℚ)⟩, ⟨"ap-south-1b", (3:ℚ)⟩, ⟨"ap-south-1a", (2:ℚ)⟩] ∧
    ({ az := "ap-south-1a", pool_id := "m5.large_apsouth1a", price := (1:ℚ) } : PriceSample).pool_id
      = "m5.large" ++ "_" ++ stripHyphens "ap-south-1a" := by
  refine ⟨by decide, by decide, ?_⟩
  exact ((C7_spot_price_pools "m5.large"
    [⟨"ap-south-1a", (1:ℚ)⟩, ⟨"ap-south-1b", (3:ℚ)⟩, ⟨"ap-south-1a", (2:ℚ)⟩]).1
    { az := "ap-south-1a", pool_id := "m5.large_apsouth1a", price := (1:ℚ) }
    (by decide)).1

/-! ## Data model of the agent and its cloud environment -/

/-- The slice of one EC2 network-interface descriptor the agent reads:
`launch_instance` only tests, on the first interface, whether its
association carries a non-null public address (line 253). -/
structure NetworkInterface where
  hasPublicIp : Bool
deriving DecidableEq, Repr

/-- The dict returned by `AWSResourceManager.get_instance_details`
(lines 149-162). `state` and `block_device_mappings` are carried by the
source but never read by the functions under verification, so they are
omitted. -/
structure InstanceDetails where
  instance_id : String
  instance_type : String
  lifecycle : String
  az : String
  subnet_id : Option String
  security_groups : List String
  key_name : Option String
  iam_instance_profile : Option String
  tags : List (String × String)
  network_interfaces : List NetworkInterface
deriving DecidableEq, Repr

/-- The `launch_config` dict assembled at Step 3 of `execute_switch`
(lines 792-802). -/
structure LaunchConfig where
  ami_id : String
  instance_type : String
  key_name : Option String
  security_groups : List String
  subnet_id : Option String
  iam_instance_profile : Option String
  tags : List (String × String)
  network_interfaces : List NetworkInterface
  old_instance_id : String
deriving DecidableEq, Repr

/-- `InstanceMarketOptions` of a spot launch request (lines 261-267). -/
structure MarketOptions where
  market_type : String
  spot_instance_type : String
  interruption_behavior : String
deriving DecidableEq, Repr

/-- The single `NetworkInterfaces` entry of a launch request (lines 249-254). -/
structure NIParam where
  device_index : Nat
  subnet_id : Option String
  groups : List String
  associate_public_ip : Bool
deriving DecidableEq, Repr

/-- The `launch_params` dict built by `AWSResourceManager.launch_instance`
(lines 220-267).  `min_count`/`max_count` are the constants 1/1 and are
omitted.  The `spot-optimizer-created` tag's ISO timestamp is rendered from
the monotone clock counter. -/
structure LaunchParams where
  image_id : String
  instance_type : String
  tags : List (String × String)
  key_name : Option String
  iam_instance_profile : Option String
  network_interfaces : Option NIParam
  security_group_ids : Option (List String)
  subnet_id : Option String
  instance_market_options : Option MarketOptions
deriving DecidableEq, Repr

/-- Python truthiness of an optional string: the key-name and IAM-profile
guards at lines 238 and 241 are false both for a missing value and for
the empty string. -/
def optStrTruthy : Option String → Bool
  | none => false
  | some s => s ≠ ""

/-- `AWSResourceManager.launch_instance`'s parameter assembly
(lines 220-267), minus the actual `run_instances` call, which is
environment behaviour.  `createdAt` is the clock value read for the
`spot-optimizer-created` tag. -/
def buildLaunchParams (config : LaunchConfig) (target_mode : String) (createdAt : Nat) :
    LaunchParams :=
  let tags := config.tags ++
    [("spot-optimizer-managed", "true"),
     ("spot-optimizer-parent", config.old_instance_id),
     ("spot-optimizer-created", toString createdAt)]
  let netPart : Option NIParam × Option (List String) × Option String :=
    match config.network_interfaces with
    | ni :: _ =>
      (some { device_index := 0, subnet_id := config.subnet_id,
              groups := config.security_groups,
              associate_public_ip := ni.hasPublicIp }, none, none)
    | [] => (none, some config.security_groups, config.subnet_id)
  { image_id := config.ami_id,
    instance_type := config.instance_type,
    tags := tags,
    key_name := if optStrTruthy config.key_name then config.key_name else none,
    iam_instance_profile :=
      if optStrTruthy config.iam_instance_profile then config.iam_instance_profile else none,
    network_interfaces := netPart.1,
    security_group_ids := netPart.2.1,
    subnet_id := netPart.2.2,
    instance_market_options :=
      if target_mode = "spot" then
        some { market_type := "spot", spot_instance_type := "persistent",
               interruption_behavior := "stop" }
      else none }

/-- Step 3 of `execute_switch` (lines 792-802): the launch configuration
assembled from the predecessor's details plus the fresh AMI id. -/
def mkLaunchConfig (instance_details : InstanceDetails) (ami_id old_instance_id : String) :
    LaunchConfig :=
  { ami_id := ami_id,
    instance_type := instance_details.instance_type,
    key_name := instance_details.key_name,
    security_groups := instance_details.security_groups,
    subnet_id := instance_details.subnet_id,
    iam_instance_profile := instance_details.iam_instance_profile,
    tags := instance_details.tags,
    network_interfaces := instance_details.network_interfaces,
    old_instance_id := old_instance_id }

/-- The cloud / provider environment: each field abstracts one
`AWSResourceManager` capability as a pure oracle.  `describe` models
`get_instance_details`; `createAmi` models `create_ami_from_instance`
(returning `none` both when `create_image` errors and when the image never
reaches "available"); `launch` models `run_instances` + the running waiter;
`terminateOk` models `terminate_instances`; `spotHistory` is the
`describe_spot_price_history` response; `ondemandFetch` models
`get_ondemand_price` keyed by instance type. -/
structure AwsEnv where
  describe : String → Option InstanceDetails
  createAmi : String → Option String
  launch : LaunchParams → Option String
  terminateOk : String → Bool
  spotHistory : List SpotHistoryItem
  ondemandFetch : String → Option ℚ

/-- `AWSResourceManager.get_current_mode` (lines 167-182). -/
def get_current_mode (env : AwsEnv) (instance_id : String) : String × Option String :=
  match env.describe instance_id with
  | none => ("unknown", none)
  | some details =>
    if details.lifecycle = "spot" then
      ("spot", some (details.instance_type ++ "_" ++ stripHyphens details.az))
    else
      ("ondemand", none)

/-- The mutable state of `SpotOptimizerAgent` read or written by the
functions under verification: the identity fields of `AgentConfig`, the
control flags, the on-demand price cache, the switch flag, and the monotone
clock counter standing in for `datetime.utcnow()`. -/
structure AgentState where
  instance_id : String
  instance_type : String
  availability_zone : String
  ami_id : String
  region : String
  enabled : Bool
  auto_switch_enabled : Bool
  auto_terminate_enabled : Bool
  ondemand_price_interval : Nat
  current_mode : String
  current_pool_id : Option String
  switching_in_progress : Bool
  last_ondemand_price : Option ℚ
  last_ondemand_fetch : Option Nat
  clock : Nat
deriving DecidableEq, Repr

/-- The fall-through of `SpotOptimizerAgent._get_ondemand_price`
(lines 947-952), factored out: fetch a fresh price, cache it when truthy
(recording the fetch clock), and return `self.last_ondemand_price or 0.1`. -/
def ondemandFetchPart (env : AwsEnv) (s : AgentState) : ℚ × AgentState :=
  let price := env.ondemandFetch s.instance_type
  let s2 : AgentState :=
    match price with
    | some q =>
      if q = 0 then s
      else
        { s with last_ondemand_price := some q,
                 last_ondemand_fetch := some s.clock,
                 clock := s.clock + 1 }
    | none => s
  match s2.last_ondemand_price with
  | some p => if p = 0 then ((1:ℚ)/10, s2) else (p, s2)
  | none => ((1:ℚ)/10, s2)

/-- `SpotOptimizerAgent._get_ondemand_price` (lines 940-952).  The guard
`if self.last_ondemand_price and self.last_ondemand_fetch:` is Python
truthiness: a cached price of 0 counts as absent.  The age comparison and
the cache-update timestamp each read (and bump) the clock, mirroring the
two `datetime.utcnow()` calls. -/
def _get_ondemand_price (env : AwsEnv) (s : AgentState) : ℚ × AgentState :=
  match s.last_ondemand_price, s.last_ondemand_fetch with
  | some p, some t =>
    if p = 0 then ondemandFetchPart env s
    else
      let age := s.clock - t
      let s1 : AgentState := { s with clock := s.clock + 1 }
      if age < s.ondemand_price_interval then (p, s1) else ondemandFetchPart env s1
  | _, _ => ondemandFetchPart env s

/-- Python `dict.get(key, default)` on the tag map. -/
def lookupTag (tags : List (String × String)) (key : String) : Option String :=
  (tags.find? (fun kv => kv.1 == key)).map Prod.snd

/-- One of the two instance snapshots inside a switch report
(lines 874-891). -/
structure ReportInstance where
  instance_id : String
  mode : String
  pool_id : Option String
  instance_type : String
  region : String
  az : String
  ami_id : String
deriving DecidableEq, Repr

/-- The `timing` dict of a switch report (lines 901-906); timestamps are
clock-counter values, `old_instance_terminated_at` is `none` when
termination was skipped or failed. -/
structure ReportTiming where
  switch_initiated_at : Nat
  new_instance_ready_at : Nat
  traffic_switched_at : Nat
  old_instance_terminated_at : Option Nat
deriving DecidableEq, Repr

/-- The `prices` dict of a switch report (lines 896-900). -/
structure ReportPrices where
  on_demand : ℚ
  old_spot : ℚ
  new_spot : ℚ
deriving DecidableEq, Repr

/-- The full payload of `report_switch_event` (lines 873-908), i.e. the
spec's `MigrationRecord`. -/
structure MigrationRecord where
  old_instance : ReportInstance
  new_instance : ReportInstance
  snapshot_id : String
  prices : ReportPrices
  timing : ReportTiming
  trigger : String
deriving DecidableEq, Repr

/-- Externally visible actions of one command-drain tick, in program
order: the cloud mutations of `execute_switch`, the switch report, and the
command acknowledgement. -/
inductive Effect where
  | createAmiCalled (instance_id : String)
  | launchCalled (params : LaunchParams)
  | terminateCalled (instance_id : String)
  | switchReport (record : MigrationRecord)
  | markExecuted (command_id : Nat)
deriving DecidableEq, Repr

/-- `SpotOptimizerAgent.execute_switch` (lines 751-938).

The mutex-guarded check-and-set of `switching_in_progress` (753-758) is the
entry `if`; its early `return False` is the only path that leaves the flag
untouched, since the `finally:` (937-938) clears it on every path through
the `try` body.  Cloud calls go through `env`; every Python exception path
of a step is the `none` case of the corresponding oracle.  `utcnow()` reads
return the clock and bump it.  The returned triple is
(Python return value, final agent state, effect trace). -/
def execute_switch (env : AwsEnv) (target_mode : String) (target_pool_id : Option String)
    (trigger : String) (s0 : AgentState) : Bool × AgentState × List Effect :=
  if s0.switching_in_progress then (false, s0, [])
  else
    let s1 : AgentState := { s0 with switching_in_progress := true }
    let old_instance_id := s1.instance_id
    let old_mode := s1.current_mode
    let old_pool_id := s1.current_pool_id
    match env.describe old_instance_id with
    | none => (false, { s1 with switching_in_progress := false }, [])
    | some instance_details =>
      match env.createAmi old_instance_id with
      | none =>
        (false, { s1 with switching_in_progress := false },
         [Effect.createAmiCalled old_instance_id])
      | some ami_id =>
        let launch_config := mkLaunchConfig instance_details ami_id old_instance_id
        let timing_start := s1.clock
        let s2 : AgentState := { s1 with clock := s1.clock + 1 }
        let createdAt := s2.clock
        let s3 : AgentState := { s2 with clock := s2.clock + 1 }
        let params := buildLaunchParams launch_config target_mode createdAt
        match env.launch params with
        | none =>
          (false, { s3 with switching_in_progress := false },
           [Effect.createAmiCalled old_instance_id, Effect.launchCalled params])
        | some new_instance_id =>
          let timing_ready := s3.clock
          let s4 : AgentState := { s3 with clock := s3.clock + 1 }
          match env.describe new_instance_id with
          | none =>
            (false, { s4 with switching_in_progress := false },
             [Effect.createAmiCalled old_instance_id, Effect.launchCalled params])
          | some new_details =>
            let modePool := get_current_mode env new_instance_id
            let new_mode := modePool.1
            let new_pool_id := modePool.2
            let priced := _get_ondemand_price env s4
            let on_demand_price := priced.1
            let s5 := priced.2
            let spot_pools := get_spot_prices s5.instance_type env.spotHistory
            let old_spot_price : ℚ :=
              match old_pool_id with
              | some opid =>
                if old_mode = "spot" ∧ opid ≠ "" then
                  match spot_pools.find? (fun p => p.pool_id == opid) with
                  | some p => p.price
                  | none => 0
                else 0
              | none => 0
            let new_spot_price : ℚ :=
              match new_pool_id with
              | some npid =>
                if new_mode = "spot" ∧ npid ≠ "" then
                  match spot_pools.find? (fun p => p.pool_id == npid) with
                  | some p => p.price
                  | none => 0
                else 0
              | none => 0
            let timing_switched := s5.clock
            let s6 : AgentState := { s5 with clock := s5.clock + 1 }
            let terminated : Option Nat × AgentState × List Effect :=
              if s6.auto_terminate_enabled then
                if env.terminateOk old_instance_id then
                  (some s6.clock, { s6 with clock := s6.clock + 1 },
                   [Effect.terminateCalled old_instance_id])
                else (none, s6, [Effect.terminateCalled old_instance_id])
              else (none, s6, [])
            let timing_terminated := terminated.1
            let s7 := terminated.2.1
            let termEffs := terminated.2.2
            let record : MigrationRecord :=
              { old_instance :=
                  { instance_id := old_instance_id,
                    mode := old_mode,
                    pool_id := old_pool_id,
                    instance_type := instance_details.instance_type,
                    region := s7.region,
                    az := instance_details.az,
                    ami_id := (lookupTag instance_details.tags "ami-id").getD s7.ami_id },
                new_instance :=
                  { instance_id := new_instance_id,
                    mode := new_mode,
                    pool_id := new_pool_id,
                    instance_type := new_details.instance_type,
                    region := s7.region,
                    az := new_details.az,
                    ami_id := ami_id },
                snapshot_id := ami_id,
                prices :=
                  { on_demand := on_demand_price,
                    old_spot := old_spot_price,
                    new_spot := new_spot_price },
                timing :=
                  { switch_initiated_at := timing_start,
                    new_instance_ready_at := timing_ready,
                    traffic_switched_at := timing_switched,
                    old_instance_terminated_at := timing_terminated },
                trigger := trigger }
            let s8 : AgentState :=
              { s7 with
                instance_id := new_instance_id,
                instance_type := new_details.instance_type,
                availability_zone := new_details.az,
                current_mode := new_mode,
                current_pool_id := new_pool_id,
                switching_in_progress := false }
            (true, s8,
             [Effect.createAmiCalled old_instance_id, Effect.launchCalled params]
               ++ termEffs ++ [Effect.switchReport record])

/-- One pending command as returned by `get_pending_commands`
(the fields read at lines 726-744). -/
structure PendingCommand where
  id : Nat
  instance_id : String
  target_mode : String
  target_pool_id : Option String
deriving DecidableEq, Repr

/-- Line 730: the legacy target token pool is mapped to spot; every other
token passes through unchanged. -/
def normalizeTargetMode (tm : String) : String :=
  if tm = "pool" then "spot" else tm

/-- The body of the per-command `for` loop of
`SpotOptimizerAgent._command_processor_loop` (lines 725-744): commands
addressed to the current instance id run the engine and are then
acknowledged; all others are passed over (no acknowledgement appears
outside the `if`). -/
def processOneCommand (env : AwsEnv) (cmd : PendingCommand) (s : AgentState) :
    AgentState × List Effect :=
  if cmd.instance_id = s.instance_id then
    let run := execute_switch env (normalizeTargetMode cmd.target_mode)
      cmd.target_pool_id "manual" s
    (run.2.1, run.2.2 ++ [Effect.markExecuted cmd.id])
  else (s, [])

/-- The `for cmd in commands:` loop of `_command_processor_loop`, threading
the agent state (a successful switch rebinds `instance_id` for the
commands that follow in the same tick). -/
def processCommandsList (env : AwsEnv) :
    List PendingCommand → AgentState → AgentState × List Effect
  | [], s => (s, [])
  | cmd :: rest, s =>
    let first := processOneCommand env cmd s
    let later := processCommandsList env rest first.1
    (later.1, first.2 ++ later.2)

/-- One tick of `SpotOptimizerAgent._command_processor_loop`
(lines 710-744) with the fetched command list passed explicitly: skipped
entirely when the agent is disabled, auto-switch is off, or a switch is in
progress. -/
def command_processor_tick (env : AwsEnv) (commands : List PendingCommand)
    (s : AgentState) : AgentState × List Effect :=
  if ¬ s.enabled ∨ ¬ s.auto_switch_enabled then (s, [])
  else if s.switching_in_progress then (s, [])
  else processCommandsList env commands s

/-! ## Mutual exclusion of the migration engine

The `with self.switch_lock:` block (753-758) makes the test-and-set of
`switching_in_progress` one atomic action, and the `finally:` (937-938)
is the matching atomic release.  The interleaving of engine invocations
is therefore abstracted as a transition system whose two events are that
atomic acquire attempt and the release; `running` counts engine bodies
currently executing. -/

/-- An atomic action on the switch guard: an acquire attempt by a caller
of `execute_switch`, or the `finally:` release of a running body. -/
inductive EngineEvent where
  | tryEnter
  | finish
deriving DecidableEq, Repr

/-- The guard state shared by all `execute_switch` callers. -/
structure EngineMonitor where
  in_progress : Bool
  running : Nat
deriving DecidableEq, Repr

/-- Agent startup: no switch in progress, no engine body running. -/
def engineInit : EngineMonitor := { in_progress := false, running := 0 }

/-- Effect of one atomic action: a `tryEnter` against a set flag is the
early `return False` (lines 754-756) and changes nothing; otherwise it
sets the flag and one more body runs (758).  `finish` is the `finally:`
clear (938). -/
def engineStep (m : EngineMonitor) : EngineEvent → EngineMonitor
  | .tryEnter =>
    if m.in_progress then m
    else { in_progress := true, running := m.running + 1 }
  | .finish => { in_progress := false, running := m.running - 1 }

/-- The guard state after any finite interleaving of acquire attempts and
releases, starting from startup. -/
def engineRun (events : List EngineEvent) : EngineMonitor :=
  events.foldl engineStep engineInit

theorem engineRun_invariant :
    ∀ (events : List EngineEvent) (m : EngineMonitor),
      m.running ≤ 1 → (m.in_progress = true ↔ m.running = 1) →
      (events.foldl engineStep m).running ≤ 1 ∧
      ((events.foldl engineStep m).in_progress = true ↔
        (events.foldl engineStep m).running = 1) := by
  intro events
  induction events with
  | nil => intro m h1 h2; exact ⟨h1, h2⟩
  | cons e rest ih =>
    intro m h1 h2
    rcases e with _ | _
    · by_cases hip : m.in_progress
      · simpa [List.foldl_cons, engineStep, hip] using ih m h1 h2
      · have hr : m.running = 0 := by
          rcases Nat.lt_or_ge m.running 1 with h | h
          · omega
          · exfalso
            have : m.running = 1 := le_antisymm h1 h
            exact hip (h2.mpr this)
        refine ih _ ?_ ?_ <;> simp [List.foldl_cons, engineStep, hip, hr]
    · refine ih _ ?_ ?_ <;> simp [List.foldl_cons, engineStep] <;> omega

/-! ## Helper lemmas -/


theorem ondemandFetchPart_state (env : AwsEnv) (s : AgentState) :
    ∃ p f c, (ondemandFetchPart env s).2 =
      { s with last_ondemand_price := p, last_ondemand_fetch := f, clock := c } ∧
      s.clock ≤ c := by
  obtain ⟨iid, ityp, az, ami, reg, en, asw, ate, opi, cm, cp, sip, lop, lof, clk⟩ := s
  unfold ondemandFetchPart
  rcases hq : env.ondemandFetch ityp with _ | q <;> dsimp only
  · rcases lop with _ | p
    · exact ⟨none, lof, clk, rfl, le_refl _⟩
    · refine ⟨some p, lof, clk, ?_, le_refl _⟩
      dsimp only
      split <;> rfl
  · by_cases hq0 : q = 0
    · subst hq0
      rw [if_pos rfl]
      rcases lop with _ | p
      · exact ⟨none, lof, clk, rfl, le_refl _⟩
      · refine ⟨some p, lof, clk, ?_, le_refl _⟩
        dsimp only
        split <;> rfl
    · rw [if_neg hq0]
      refine ⟨some q, some clk, clk + 1, ?_, Nat.le_succ _⟩
      dsimp only
      rw [if_neg hq0]

/-- `_get_ondemand_price` only ever touches the price cache and the clock,
and the clock never decreases. -/
theorem get_ondemand_price_state (env : AwsEnv) (s : AgentState) :
    ∃ p f c, (_get_ondemand_price env s).2 =
      { s with last_ondemand_price := p, last_ondemand_fetch := f, clock := c } ∧
      s.clock ≤ c := by
  obtain ⟨iid, ityp, az, ami, reg, en, asw, ate, opi, cm, cp, sip, lop, lof, clk⟩ := s
  unfold _get_ondemand_price
  rcases lop with _ | p <;> rcases lof with _ | t
  · exact ondemandFetchPart_state env _
  · exact ondemandFetchPart_state env _
  · exact ondemandFetchPart_state env _
  · by_cases hp0 : p = 0
    · simp only [hp0, if_pos rfl]
      exact ondemandFetchPart_state env _
    · simp only [if_neg hp0]
      by_cases hage : clk - t < opi
      · exact ⟨some p, some t, clk + 1, by simp [hage], Nat.le_succ _⟩
      · simp only [if_neg hage]
        obtain ⟨p', f', c', heq, hc⟩ := ondemandFetchPart_state env
          { instance_id := iid, instance_type := ityp, availability_zone := az,
            ami_id := ami, region := reg, enabled := en, auto_switch_enabled := asw,
            auto_terminate_enabled := ate, ondemand_price_interval := opi,
            current_mode := cm, current_pool_id := cp, switching_in_progress := sip,
            last_ondemand_price := some p, last_ondemand_fetch := some t,
            clock := clk + 1 }
        exact ⟨p', f', c', heq, by simpa using Nat.le_trans (Nat.le_succ _) hc⟩

/-- `execute_switch` itself never acknowledges a command: the only
`mark_command_executed` call of the drain loop sits outside it
(line 744). -/
theorem execute_switch_no_mark (env : AwsEnv) (tm : String) (tp : Option String)
    (tr : String) (s : AgentState) (cid : Nat) :
    Effect.markExecuted cid ∉ (execute_switch env tm tp tr s).2.2 := by
  unfold execute_switch
  dsimp only
  split
  · simp
  · split
    · simp
    · split
      · simp
      · split
        · simp
        · split
          · simp
          · dsimp only
            split
            · split <;> simp
            · simp

/-! ## Concrete fixtures (spec §8, scenario 1 and variants) -/

/-- Scenario 1's starting identity
`(i-A, m5.large, ap-south-1a, ami-0, reclaimable, m5.large_apsouth1a)`,
idle, with an empty price cache and all flags on. -/
def baseState : AgentState :=
  { instance_id := "i-A", instance_type := "m5.large",
    availability_zone := "ap-south-1a", ami_id := "ami-0", region := "ap-south-1",
    enabled := true, auto_switch_enabled := true, auto_terminate_enabled := true,
    ondemand_price_interval := 3600, current_mode := "spot",
    current_pool_id := some "m5.large_apsouth1a", switching_in_progress := false,
    last_ondemand_price := none, last_ondemand_fetch := none, clock := 0 }

/-- Describe-response for the predecessor `i-A` (a spot instance). -/
def oldDetails : InstanceDetails :=
  { instance_id := "i-A", instance_type := "m5.large", lifecycle := "spot",
    az := "ap-south-1a", subnet_id := some "subnet-1", security_groups := ["sg-1"],
    key_name := some "key-1", iam_instance_profile := none, tags := [],
    network_interfaces := [] }

/-- Describe-response for the successor `i-B` (an on-demand instance). -/
def newDetails : InstanceDetails :=
  { instance_id := "i-B", instance_type := "m5.large", lifecycle := "normal",
    az := "ap-south-1a", subnet_id := some "subnet-1", security_groups := ["sg-1"],
    key_name := some "key-1", iam_instance_profile := none, tags := [],
    network_interfaces := [] }

/-- A cloud environment in which every step of scenario 1 succeeds:
the snapshot becomes `ami-1`, the launch yields `i-B`, termination is
accepted, and both pricing sources answer. -/
def happyEnv : AwsEnv :=
  { describe := fun i =>
      if i = "i-A" then some oldDetails
      else if i = "i-B" then some newDetails
      else none,
    createAmi := fun _ => some "ami-1",
    launch := fun _ => some "i-B",
    terminateOk := fun _ => true,
    spotHistory := [⟨"ap-south-1a", (1:ℚ)⟩, ⟨"ap-south-1b", (3:ℚ)⟩],
    ondemandFetch := fun _ => some (2:ℚ) }

/-- `happyEnv` with image creation failing: `create_image` errors or the
image never reaches "available" within the polling budget. -/
def snapFailEnv : AwsEnv :=
  { happyEnv with createAmi := fun _ => none }

/-- `happyEnv` with all pricing sources dark. -/
def noPriceEnv : AwsEnv :=
  { happyEnv with ondemandFetch := fun _ => none, spotHistory := [] }

/-! ## Claims -/

/-- C1 (counterexample).  A pending command whose `instance_id` does not
match the agent's current one — scenario 4's stale command — produces NO
effect at all in the drain tick: in particular no `mark_command_executed`
is sent for it, contradicting the claim that skipped commands are still
acknowledged (the acknowledgement at line 744 sits inside the
line-726 block guarded by the instance-id comparison). -/
theorem C1_stale_command_unacknowledged :
    (command_processor_tick happyEnv
        [{ id := 7, instance_id := "i-OLD", target_mode := "ondemand",
           target_pool_id := none }] baseState).2 = [] ∧
    Effect.markExecuted 7 ∉
      (command_processor_tick happyEnv
        [{ id := 7, instance_id := "i-OLD", target_mode := "ondemand",
           target_pool_id := none }] baseState).2 := by
  exact ⟨by decide, by decide⟩

/-- C1 (amended).  In one command-drain tick, a command is acknowledged
with exactly one `mark_command_executed` if and only if its `instance_id`
matches the agent's current `instance_id` when it is examined (whether the
migration then succeeds or fails); a non-matching command is skipped with
no acknowledgement and without invoking the migration engine. -/
theorem C1_ack_matching_only (env : AwsEnv) (cmd : PendingCommand) (s : AgentState) :
    ((processOneCommand env cmd s).2.count (Effect.markExecuted cmd.id) =
      if cmd.instance_id = s.instance_id then 1 else 0) ∧
    (cmd.instance_id ≠ s.instance_id → (processOneCommand env cmd s).2 = []) := by
  unfold processOneCommand
  by_cases h : cmd.instance_id = s.instance_id
  · rw [if_pos h, if_pos h]
    refine ⟨?_, fun hne => absurd h hne⟩
    dsimp only
    rw [List.count_append]
    have hno := execute_switch_no_mark env (normalizeTargetMode cmd.target_mode)
      cmd.target_pool_id "manual" s cmd.id
    rw [List.count_eq_zero.mpr hno]
    simp
  · rw [if_neg h, if_neg h]
    exact ⟨by simp, fun _ => rfl⟩

/-- Witness for C1 (amended): a stale command yields no effects; a matching
command is acknowledged exactly once even though its switch aborts at the
snapshot step. -/
theorem C1_ack_matching_only_witness :
    (processOneCommand happyEnv
      { id := 9, instance_id := "i-OLD", target_mode := "spot", target_pool_id := none }
      baseState).2 = [] ∧
    (processOneCommand snapFailEnv
      { id := 9, instance_id := "i-A", target_mode := "spot", target_pool_id := none }
      baseState).2.count (Effect.markExecuted 9) = 1 := by
  constructor
  · exact (C1_ack_matching_only happyEnv
      { id := 9, instance_id := "i-OLD", target_mode := "spot", target_pool_id := none }
      baseState).2 (by decide)
  · have h := (C1_ack_matching_only snapFailEnv
      { id := 9, instance_id := "i-A", target_mode := "spot", target_pool_id := none }
      baseState).1
    simpa [baseState] using h

/-- C5.  Legacy-token normalization: `"pool"` and `"spot"` both drive the
engine with the reclaimable (`spot`) mode and `"ondemand"` with the fixed
mode, and the launch request built by `launch_instance` carries
`InstanceMarketOptions` (spot / persistent / stop) exactly when the
normalized target mode is `spot`. -/
theorem C5_token_normalization :
    normalizeTargetMode "pool" = "spot" ∧
    normalizeTargetMode "spot" = "spot" ∧
    normalizeTargetMode "ondemand" = "ondemand" ∧
    ∀ (cfg : LaunchConfig) (tm : String) (createdAt : Nat),
      ((buildLaunchParams cfg (normalizeTargetMode tm) createdAt).instance_market_options.isSome
          ↔ normalizeTargetMode tm = "spot") ∧
      (normalizeTargetMode tm = "spot" →
        (buildLaunchParams cfg (normalizeTargetMode tm) createdAt).instance_market_options =
          some { market_type := "spot", spot_instance_type := "persistent",
                 interruption_behavior := "stop" }) := by
  refine ⟨by decide, by decide, by decide, ?_⟩
  intro cfg tm createdAt
  unfold buildLaunchParams
  by_cases h : normalizeTargetMode tm = "spot" <;> simp [h]

/-- Witness for C5 at scenario 2's legacy token and scenario 1's fixed
token. -/
theorem C5_token_normalization_witness :
    (buildLaunchParams (mkLaunchConfig oldDetails "ami-1" "i-A")
        (normalizeTargetMode "pool") 1).instance_market_options =
      some { market_type := "spot", spot_instance_type := "persistent",
             interruption_behavior := "stop" } ∧
    (buildLaunchParams (mkLaunchConfig oldDetails "ami-1" "i-A")
        (normalizeTargetMode "ondemand") 1).instance_market_options.isSome = false := by
  constructor
  · exact (C5_token_normalization.2.2.2 (mkLaunchConfig oldDetails "ami-1" "i-A")
      "pool" 1).2 (by decide)
  · have h := (C5_token_normalization.2.2.2 (mkLaunchConfig oldDetails "ami-1" "i-A")
      "ondemand" 1).1
    have hne : ¬ normalizeTargetMode "ondemand" = "spot" := by decide
    exact Bool.eq_false_iff.mpr (fun hs => hne (h.mp hs))

/-- C8.  Mutual exclusion of the migration engine: (i) under any finite
interleaving of atomic guard acquisitions and releases, at most one engine
body runs at a time; (ii) a call to `execute_switch` that observes the
`in_progress` flag set returns `False` at once, with no state change and
no cloud effect; (iii) an enabled command-drain tick short-circuits to a
no-op while the flag is set. -/
theorem C8_single_migration :
    (∀ events : List EngineEvent, (engineRun events).running ≤ 1) ∧
    (∀ (env : AwsEnv) (tm : String) (tp : Option String) (tr : String) (s : AgentState),
      s.switching_in_progress = true →
      execute_switch env tm tp tr s = (false, s, [])) ∧
    (∀ (env : AwsEnv) (commands : List PendingCommand) (s : AgentState),
      s.enabled = true → s.auto_switch_enabled = true →
      s.switching_in_progress = true →
      command_processor_tick env commands s = (s, [])) := by
  refine ⟨?_, ?_, ?_⟩
  · intro events
    exact (engineRun_invariant events engineInit (by decide) (by decide)).1
  · intro env tm tp tr s h
    unfold execute_switch
    rw [if_pos h]
  · intro env commands s he ha hs
    unfold command_processor_tick
    rw [if_neg (by simp [he, ha]), if_pos hs]

/-- Witness for C8: two competing acquisitions leave one runner; a second
`execute_switch` and a drain tick against a set flag are no-ops. -/
theorem C8_single_migration_witness :
    (engineRun [EngineEvent.tryEnter, EngineEvent.tryEnter]).running ≤ 1 ∧
    execute_switch happyEnv "ondemand" none "manual"
        { baseState with switching_in_progress := true } =
      (false, { baseState with switching_in_progress := true }, []) ∧
    command_processor_tick happyEnv
        [{ id := 7, instance_id := "i-A", target_mode := "ondemand",
           target_pool_id := none }]
        { baseState with switching_in_progress := true } =
      ({ baseState with switching_in_progress := true }, []) := by
  exact ⟨C8_single_migration.1 _,
    C8_single_migration.2.1 happyEnv "ondemand" none "manual" _ rfl,
    C8_single_migration.2.2 happyEnv _ _ rfl rfl rfl⟩

/-- C10.  `_get_ondemand_price` is total (it returns a price on every
path, by its type) and never reports absence: a cached price younger than
the fixed-price poll interval is returned as is; with no usable cache the
price is refetched and cached when the fetch yields a nonzero price; and
when the fetch fails (or yields Python-falsy 0) with nothing ever cached,
the hard-coded placeholder 0.1 USD/hour is returned. -/
theorem C10_ondemand_price_fallback (env : AwsEnv) (s : AgentState) :
    (∀ p t, s.last_ondemand_price = some p → s.last_ondemand_fetch = some t →
      p ≠ 0 → s.clock - t < s.ondemand_price_interval →
      _get_ondemand_price env s = (p, { s with clock := s.clock + 1 })) ∧
    (s.last_ondemand_price = none → ∀ q, env.ondemandFetch s.instance_type = some q →
      q ≠ 0 →
      _get_ondemand_price env s =
        (q, { s with last_ondemand_price := some q,
                     last_ondemand_fetch := some s.clock,
                     clock := s.clock + 1 })) ∧
    (s.last_ondemand_price = none →
      (env.ondemandFetch s.instance_type = none ∨
        env.ondemandFetch s.instance_type = some 0) →
      (_get_ondemand_price env s).1 = (1:ℚ)/10) := by
  refine ⟨?_, ?_, ?_⟩
  · intro p t hp ht hp0 hage
    unfold _get_ondemand_price
    rw [hp, ht]
    dsimp only
    rw [if_neg hp0, if_pos hage]
  · intro hp q hq hq0
    unfold _get_ondemand_price
    rw [hp]
    dsimp only
    unfold ondemandFetchPart
    rw [hq]
    dsimp only
    rw [if_neg hq0]
    dsimp only
    rw [if_neg hq0]
  · intro hp hq
    unfold _get_ondemand_price
    rw [hp]
    dsimp only
    unfold ondemandFetchPart
    rcases hq with hq | hq <;> rw [hq] <;> dsimp only
    · rw [hp]
    · rw [if_pos rfl, hp]

/-- Witness for C10: with nothing cached and pricing dark the placeholder
0.1 is returned; a fresh cached value (5 at clock 0, read at clock 10,
interval 3600) is served from the cache. -/
theorem C10_ondemand_price_fallback_witness :
    (_get_ondemand_price noPriceEnv baseState).1 = (1:ℚ)/10 ∧
    _get_ondemand_price happyEnv
        { baseState with last_ondemand_price := some 5,
                         last_ondemand_fetch := some 0, clock := 10 } =
      (5, { baseState with last_ondemand_price := some 5,
                           last_ondemand_fetch := some 0, clock := 11 }) := by
  constructor
  · exact (C10_ondemand_price_fallback noPriceEnv baseState).2.2 rfl (Or.inl rfl)
  · exact (C10_ondemand_price_fallback happyEnv
      { baseState with last_ondemand_price := some 5,
                       last_ondemand_fetch := some 0, clock := 10 }).1
      5 0 rfl rfl (by decide) (by decide)

/-- C3.  If image creation fails (`create_ami_from_instance` returns no
AMI because `create_image` errored or the image never reached
"available"), `execute_switch` aborts at the SNAPSHOT step: it returns
`False`, no launch is attempted and no switch report is sent (the effect
trace holds only the AMI-creation attempt), and the `finally:` clears
`switching_in_progress` so the next drain tick proceeds normally. -/
theorem C3_snapshot_failure_aborts (env : AwsEnv) (tm : String) (tp : Option String)
    (tr : String) (s : AgentState) (od : InstanceDetails)
    (hflag : s.switching_in_progress = false)
    (hd : env.describe s.instance_id = some od)
    (ha : env.createAmi s.instance_id = none) :
    execute_switch env tm tp tr s =
      (false, { s with switching_in_progress := false },
       [Effect.createAmiCalled s.instance_id]) := by
  unfold execute_switch
  rw [if_neg (by simp [hflag])]
  dsimp only
  rw [hd, ha]

/-- Witness for C3: scenario 5's image-creation failure at the concrete
scenario-1 starting state. -/
theorem C3_snapshot_failure_aborts_witness :
    execute_switch snapFailEnv "ondemand" none "manual" baseState =
      (false, { baseState with switching_in_progress := false },
       [Effect.createAmiCalled baseState.instance_id]) := by
  exact C3_snapshot_failure_aborts snapFailEnv "ondemand" none "manual" baseState
    oldDetails rfl (by decide) rfl

/-- C9.  Abort atomicity of the agent's identity: whenever
`execute_switch` returns `False` — at whatever step it aborted, including
after the successor was already launched — the identity fields
(`instance_id`, `instance_type`, `availability_zone`, `current_mode`,
`current_pool_id`, and also `ami_id`) are exactly what they were before
the call; rebinding happens only on the success path (Step 9). -/
theorem C9_abort_preserves_identity (env : AwsEnv) (tm : String) (tp : Option String)
    (tr : String) (s : AgentState)
    (h : (execute_switch env tm tp tr s).1 = false) :
    (execute_switch env tm tp tr s).2.1.instance_id = s.instance_id ∧
    (execute_switch env tm tp tr s).2.1.instance_type = s.instance_type ∧
    (execute_switch env tm tp tr s).2.1.availability_zone = s.availability_zone ∧
    (execute_switch env tm tp tr s).2.1.current_mode = s.current_mode ∧
    (execute_switch env tm tp tr s).2.1.current_pool_id = s.current_pool_id ∧
    (execute_switch env tm tp tr s).2.1.ami_id = s.ami_id := by
  by_cases hflag : s.switching_in_progress = true
  · unfold execute_switch at h ⊢
    rw [if_pos hflag] at h ⊢
    simp
  · unfold execute_switch at h ⊢
    rw [if_neg hflag] at h ⊢
    dsimp only at h ⊢
    rcases hd : env.describe s.instance_id with _ | od <;> simp only [hd] at h ⊢
    · simp
    · rcases ha : env.createAmi s.instance_id with _ | ami <;> simp only [ha] at h ⊢
      · simp
      · rcases hl : env.launch (buildLaunchParams (mkLaunchConfig od ami s.instance_id)
            tm (s.clock + 1)) with _ | nid <;> simp only [hl] at h ⊢
        · simp
        · rcases hn : env.describe nid with _ | nd <;> simp only [hn] at h ⊢
          · simp
          · simp at h

/-- Witness for C9: the snapshot-failure abort leaves scenario 1's
starting identity untouched. -/
theorem C9_abort_preserves_identity_witness :
    (execute_switch snapFailEnv "ondemand" none "manual" baseState).2.1.instance_id =
      baseState.instance_id ∧
    (execute_switch snapFailEnv "ondemand" none "manual" baseState).2.1.current_mode =
      baseState.current_mode ∧
    (execute_switch snapFailEnv "ondemand" none "manual" baseState).2.1.ami_id =
      baseState.ami_id := by
  have h := C9_abort_preserves_identity snapFailEnv "ondemand" none "manual" baseState
    (by decide)
  exact ⟨h.1, h.2.2.2.1, h.2.2.2.2.2⟩

/-- C4.  For every `MigrationRecord` emitted by `execute_switch`:
`initiated ≤ new_instance_ready ≤ traffic_switched`, and when
`old_instance_terminated` is non-null, `traffic_switched ≤
old_instance_terminated`. -/
theorem C4_timing_monotone (env : AwsEnv) (tm : String) (tp : Option String)
    (tr : String) (s : AgentState) (r : MigrationRecord)
    (h : Effect.switchReport r ∈ (execute_switch env tm tp tr s).2.2) :
    r.timing.switch_initiated_at ≤ r.timing.new_instance_ready_at ∧
    r.timing.new_instance_ready_at ≤ r.timing.traffic_switched_at ∧
    ∀ t, r.timing.old_instance_terminated_at = some t →
      r.timing.traffic_switched_at ≤ t := by
  by_cases hflag : s.switching_in_progress = true
  · unfold execute_switch at h
    rw [if_pos hflag] at h
    simp at h
  · unfold execute_switch at h
    rw [if_neg hflag] at h
    dsimp only at h
    rcases hd : env.describe s.instance_id with _ | od <;> simp only [hd] at h
    · simp at h
    · rcases ha : env.createAmi s.instance_id with _ | ami <;> simp only [ha] at h
      · simp at h
      · rcases hl : env.launch (buildLaunchParams (mkLaunchConfig od ami s.instance_id)
            tm (s.clock + 1)) with _ | nid <;> simp only [hl] at h
        · simp at h
        · rcases hn : env.describe nid with _ | nd <;> simp only [hn] at h
          · simp at h
          · obtain ⟨p, f, c, heq, hc⟩ := get_ondemand_price_state env
              { s with switching_in_progress := true, clock := s.clock + 1 + 1 + 1 }
            dsimp only at hc
            rw [heq] at h
            dsimp only at h
            split at h
            · split at h
              · simp at h
                subst h
                dsimp only
                refine ⟨by omega, by omega, ?_⟩
                intro t ht
                injection ht with ht
                omega
              · simp at h
                subst h
                dsimp only
                refine ⟨by omega, by omega, ?_⟩
                intro t ht
                simp at ht
            · simp at h
              subst h
              dsimp only
              refine ⟨by omega, by omega, ?_⟩
              intro t ht
              simp at ht

/-- The `MigrationRecord` that the scenario-1 run through `happyEnv`
emits (clock values 0,2,4,5). -/
def happyRecord : MigrationRecord :=
  { old_instance :=
      { instance_id := "i-A", mode := "spot", pool_id := some "m5.large_apsouth1a",
        instance_type := "m5.large", region := "ap-south-1", az := "ap-south-1a",
        ami_id := "ami-0" },
    new_instance :=
      { instance_id := "i-B", mode := "ondemand", pool_id := none,
        instance_type := "m5.large", region := "ap-south-1", az := "ap-south-1a",
        ami_id := "ami-1" },
    snapshot_id := "ami-1",
    prices := { on_demand := 2, old_spot := 1, new_spot := 0 },
    timing := { switch_initiated_at := 0, new_instance_ready_at := 2,
                traffic_switched_at := 4, old_instance_terminated_at := some 5 },
    trigger := "manual" }

/-- Witness for C4: the scenario-1 record is really emitted and its
timestamps are ordered. -/
theorem C4_timing_monotone_witness :
    Effect.switchReport happyRecord ∈
      (execute_switch happyEnv "ondemand" none "manual" baseState).2.2 ∧
    happyRecord.timing.switch_initiated_at ≤ happyRecord.timing.new_instance_ready_at ∧
    happyRecord.timing.new_instance_ready_at ≤ happyRecord.timing.traffic_switched_at ∧
    ∀ t, happyRecord.timing.old_instance_terminated_at = some t →
      happyRecord.timing.traffic_switched_at ≤ t := by
  have hmem : Effect.switchReport happyRecord ∈
      (execute_switch happyEnv "ondemand" none "manual" baseState).2.2 := by decide
  exact ⟨hmem, C4_timing_monotone happyEnv "ondemand" none "manual" baseState
    happyRecord hmem⟩

/-- C2 (counterexample).  In scenario 1 the switch succeeds, the snapshot
is `ami-1`, yet the Step 9 rebinding (lines 917-921) never assigns
`self.config.ami_id`: the final identity is
`(i-B, m5.large, ap-south-1a, ami-0, ondemand, none)` — its image id is
the PRE-migration `ami-0`, not the newly created `ami-1` the claim
asserts.  (`ondemand`/`none` are the source's tokens for the spec's
`fixed`/`null`.) -/
theorem C2_image_id_not_rebound :
    (execute_switch happyEnv "ondemand" none "manual" baseState).1 = true ∧
    happyEnv.createAmi baseState.instance_id = some "ami-1" ∧
    (execute_switch happyEnv "ondemand" none "manual" baseState).2.1 =
      { baseState with instance_id := "i-B", current_mode := "ondemand",
                       current_pool_id := none, last_ondemand_price := some 2,
                       last_ondemand_fetch := some 3, clock := 6 } ∧
    (execute_switch happyEnv "ondemand" none "manual" baseState).2.1.ami_id = "ami-0" ∧
    (execute_switch happyEnv "ondemand" none "manual" baseState).2.1.ami_id ≠ "ami-1" := by
  exact ⟨by decide, by decide, by decide, by decide, by decide⟩

/-- C2 (amended).  After any successful `execute_switch` the identity's
`instance_id`, `instance_type`, availability zone, observed lease class
(`current_mode`, not necessarily the requested one) and pool id are the
successor's values, and — provided the cloud returned a fresh id — the
`instance_id` differs from its pre-migration value; the identity's image
id, however, is NOT rebound and keeps its pre-migration value, so in
scenario 1 the final identity is `(i-B, m5.large, ap-south-1a, ami-0,
fixed, null)`. -/
theorem C2_identity_rebinding (env : AwsEnv) (tm : String) (tp : Option String)
    (tr : String) (s : AgentState) (od nd : InstanceDetails) (ami nid : String)
    (hflag : s.switching_in_progress = false)
    (hd : env.describe s.instance_id = some od)
    (ha : env.createAmi s.instance_id = some ami)
    (hl : env.launch (buildLaunchParams (mkLaunchConfig od ami s.instance_id)
        tm (s.clock + 1)) = some nid)
    (hn : env.describe nid = some nd)
    (hne : nid ≠ s.instance_id) :
    (execute_switch env tm tp tr s).1 = true ∧
    (execute_switch env tm tp tr s).2.1.instance_id = nid ∧
    (execute_switch env tm tp tr s).2.1.instance_id ≠ s.instance_id ∧
    (execute_switch env tm tp tr s).2.1.instance_type = nd.instance_type ∧
    (execute_switch env tm tp tr s).2.1.availability_zone = nd.az ∧
    (execute_switch env tm tp tr s).2.1.current_mode = (get_current_mode env nid).1 ∧
    (execute_switch env tm tp tr s).2.1.current_pool_id = (get_current_mode env nid).2 ∧
    (execute_switch env tm tp tr s).2.1.ami_id = s.ami_id := by
  unfold execute_switch
  rw [if_neg (by simp [hflag])]
  dsimp only
  simp only [hd, ha, hl, hn]
  obtain ⟨p, f, c, heq, hc⟩ := get_ondemand_price_state env
    { s with switching_in_progress := true, clock := s.clock + 1 + 1 + 1 }
  rw [heq]
  refine ⟨by trivial, by trivial, hne, by trivial, by trivial, by trivial, by trivial, ?_⟩
  split
  · split <;> rfl
  · rfl

/-- Witness for C2 (amended) at scenario 1: the successor's identity with
an unchanged image id. -/
theorem C2_identity_rebinding_witness :
    (execute_switch happyEnv "ondemand" none "manual" baseState).1 = true ∧
    (execute_switch happyEnv "ondemand" none "manual" baseState).2.1.instance_id = "i-B" ∧
    (execute_switch happyEnv "ondemand" none "manual" baseState).2.1.ami_id =
      baseState.ami_id := by
  have h := C2_identity_rebinding happyEnv "ondemand" none "manual" baseState
    oldDetails newDetails "ami-1" "i-B" rfl (by decide) rfl (by decide) (by decide)
    (by decide)
  exact ⟨h.1, h.2.1, h.2.2.2.2.2.2.2⟩

/-- `ondemandFetchPart` neither reads nor writes `auto_terminate_enabled`:
flipping that flag flips it in the result state and changes nothing
else. -/
theorem ondemandFetchPart_frame (env : AwsEnv) (a b : Bool)
    (iid ityp az ami reg : String) (en asw : Bool) (opi : Nat) (cm : String)
    (cp : Option String) (sip : Bool) (lop : Option ℚ) (lof : Option Nat) (clk : Nat) :
    ondemandFetchPart env ⟨iid, ityp, az, ami, reg, en, asw, b, opi, cm, cp, sip, lop, lof, clk⟩ =
      ((ondemandFetchPart env
          ⟨iid, ityp, az, ami, reg, en, asw, a, opi, cm, cp, sip, lop, lof, clk⟩).1,
       { (ondemandFetchPart env
          ⟨iid, ityp, az, ami, reg, en, asw, a, opi, cm, cp, sip, lop, lof, clk⟩).2 with
            auto_terminate_enabled := b }) := by
  unfold ondemandFetchPart
  dsimp only
  rcases hq : env.ondemandFetch ityp with _ | q <;> dsimp only
  · rcases lop with _ | p
    · rfl
    · dsimp only
      by_cases hp0 : p = 0
      · rw [if_pos hp0, if_pos hp0]
      · rw [if_neg hp0, if_neg hp0]
  · by_cases hq0 : q = 0
    · rw [if_pos hq0, if_pos hq0]
      rcases lop with _ | p
      · rfl
      · dsimp only
        by_cases hp0 : p = 0
        · rw [if_pos hp0, if_pos hp0]
        · rw [if_neg hp0, if_neg hp0]
    · rw [if_neg hq0, if_neg hq0]
      dsimp only
      rw [if_neg hq0, if_neg hq0]

/-- `_get_ondemand_price` neither reads nor writes
`auto_terminate_enabled`. -/
theorem get_ondemand_price_frame (env : AwsEnv) (a b : Bool)
    (iid ityp az ami reg : String) (en asw : Bool) (opi : Nat) (cm : String)
    (cp : Option String) (sip : Bool) (lop : Option ℚ) (lof : Option Nat) (clk : Nat) :
    _get_ondemand_price env ⟨iid, ityp, az, ami, reg, en, asw, b, opi, cm, cp, sip, lop, lof, clk⟩ =
      ((_get_ondemand_price env
          ⟨iid, ityp, az, ami, reg, en, asw, a, opi, cm, cp, sip, lop, lof, clk⟩).1,
       { (_get_ondemand_price env
          ⟨iid, ityp, az, ami, reg, en, asw, a, opi, cm, cp, sip, lop, lof, clk⟩).2 with
            auto_terminate_enabled := b }) := by
  unfold _get_ondemand_price
  dsimp only
  rcases lop with _ | p <;> rcases lof with _ | t
  · exact ondemandFetchPart_frame env a b iid ityp az ami reg en asw opi cm cp sip none none clk
  · exact ondemandFetchPart_frame env a b iid ityp az ami reg en asw opi cm cp sip none (some t) clk
  · exact ondemandFetchPart_frame env a b iid ityp az ami reg en asw opi cm cp sip (some p) none clk
  · dsimp only
    by_cases hp0 : p = 0
    · rw [if_pos hp0, if_pos hp0]
      exact ondemandFetchPart_frame env a b iid ityp az ami reg en asw opi cm cp sip (some p) (some t) clk
    · rw [if_neg hp0, if_neg hp0]
      by_cases hage : clk - t < opi
      · rw [if_pos hage, if_pos hage]
      · rw [if_neg hage, if_neg hage]
        exact ondemandFetchPart_frame env a b iid ityp az ami reg en asw opi cm cp sip (some p) (some t) (clk + 1)

/-- Projects the switch report out of an effect. -/
def reportOf : Effect → Option MigrationRecord
  | Effect.switchReport record => some record
  | _ => none

/-- C6.  With `auto_terminate_enabled = false`, a successful
`execute_switch` never calls terminate on the predecessor (it is left
running), the emitted record carries `old_instance_terminated_at = none`,
and every report it emits is exactly the report of the same run with
`auto_terminate_enabled = true`, with only the termination timestamp
nulled — all other fields are produced as in the terminating case. -/
theorem C6_no_terminate_frame (env : AwsEnv) (tm : String) (tp : Option String)
    (tr : String) (s : AgentState) (od nd : InstanceDetails) (ami nid : String)
    (hterm : s.auto_terminate_enabled = false)
    (hflag : s.switching_in_progress = false)
    (hd : env.describe s.instance_id = some od)
    (ha : env.createAmi s.instance_id = some ami)
    (hl : env.launch (buildLaunchParams (mkLaunchConfig od ami s.instance_id)
        tm (s.clock + 1)) = some nid)
    (hn : env.describe nid = some nd) :
    (execute_switch env tm tp tr s).1 = true ∧
    (∀ i, Effect.terminateCalled i ∉ (execute_switch env tm tp tr s).2.2) ∧
    (∀ rec ∈ (execute_switch env tm tp tr s).2.2.filterMap reportOf,
      rec.timing.old_instance_terminated_at = none) ∧
    (execute_switch env tm tp tr s).2.2.filterMap reportOf =
      ((execute_switch env tm tp tr
          { s with auto_terminate_enabled := true }).2.2.filterMap reportOf).map
        (fun rec =>
          { rec with timing :=
              { rec.timing with old_instance_terminated_at := none } }) := by
  unfold execute_switch
  dsimp only
  rw [if_neg (show ¬ s.switching_in_progress = true by simp [hflag]),
      if_neg (show ¬ s.switching_in_progress = true by simp [hflag])]
  simp only [hd, ha, hl, hn]
  have hfr := get_ondemand_price_frame env s.auto_terminate_enabled true s.instance_id
    s.instance_type s.availability_zone s.ami_id s.region s.enabled
    s.auto_switch_enabled s.ondemand_price_interval s.current_mode
    s.current_pool_id true s.last_ondemand_price s.last_ondemand_fetch
    (s.clock + 1 + 1 + 1)
  rw [hfr]
  obtain ⟨p, f, c, heq, hc⟩ := get_ondemand_price_state env
    { s with switching_in_progress := true, clock := s.clock + 1 + 1 + 1 }
  rw [heq]
  dsimp only
  simp only [hterm]
  refine ⟨by trivial, ?_, ?_, ?_⟩
  · intro i
    simp
  · intro rec hrec
    simp [reportOf] at hrec
    subst hrec
    rfl
  · cases htok : env.terminateOk s.instance_id <;> simp [reportOf, htok]

/-- Witness for C6: scenario 3 (auto-terminate disabled) on the concrete
scenario-1 environment. -/
theorem C6_no_terminate_frame_witness :
    (execute_switch happyEnv "ondemand" none "manual"
        { baseState with auto_terminate_enabled := false }).1 = true ∧
    (∀ i, Effect.terminateCalled i ∉
      (execute_switch happyEnv "ondemand" none "manual"
        { baseState with auto_terminate_enabled := false }).2.2) ∧
    ∀ rec ∈ (execute_switch happyEnv "ondemand" none "manual"
        { baseState with auto_terminate_enabled := false }).2.2.filterMap reportOf,
      rec.timing.old_instance_terminated_at = none := by
  have h := C6_no_terminate_frame happyEnv "ondemand" none "manual"
    { baseState with auto_terminate_enabled := false } oldDetails newDetails
    "ami-1" "i-B" rfl rfl (by decide) rfl (by decide) (by decide)
  exact ⟨h.1, h.2.1, h.2.2.1⟩
